import Mathlib

/-!
Shallow embedding of the task-ownership core of the Todo API backend
(`src/routes/tasks.py`, `src/utils/jwt.py`, `src/middleware/auth.py`,
`src/schemas.py`, `src/models.py`).

The relational store is modelled as a `List Task`; `session.get(Task, id)`
is a first-match lookup by primary key, SQLModel row mutation is in-place
replacement by id, and `order_by(created_at.desc())` is a sort.  Each
handler takes the authenticated identity (`request.state.user_id`, set by
the auth middleware), the path identity, its arguments, the store and the
mutation instant, and returns the HTTP outcome together with the store
after the request.  Timestamps are naturals, identities strings.
-/

namespace TodoApi

/-- The Task row of `src/models.py` (`user_id` is the owner identity). -/
structure Task where
  id : Nat
  user_id : String
  title : String
  description : Option String
  completed : Bool
  created_at : Nat
  updated_at : Nat
deriving Repr, DecidableEq

/-- An HTTPException as raised by the handlers and the middleware:
a bare status code and detail string, not the ApiResponse envelope. -/
structure HTTPError where
  status_code : Nat
  detail : String
deriving Repr, DecidableEq

/-- The payloads the handlers place in `ApiResponse.data`. -/
inductive RespData where
  | taskList (ts : List Task)
  | task (t : Task)
  | message (s : String)
deriving Repr, DecidableEq

/-- The ApiResponse envelope of `src/schemas.py`. -/
structure ApiResponse where
  success : Bool
  data : Option RespData := none
  error : Option String := none
deriving Repr, DecidableEq

/-- The decoded JWT payload: the claims the code reads. -/
structure Payload where
  sub : Option String
  email : Option String
  exp : Option Int
deriving Repr, DecidableEq

/-- PyJWT's `jwt.decode(token, SECRET_KEY, algorithms=["HS256"])` with
default options, as called by `verify_jwt`.  `sigOk` is the outcome of
the signature and structure check against the process secret: `none`
models a bad signature or malformed token.  Because `verify_exp` is on
by default, decode also validates a present `exp` claim and raises
`ExpiredSignatureError` — a subclass of `InvalidTokenError` — when the
expiry is at or before the current instant; an absent `exp` claim is
not validated. -/
def jwtDecode (sigOk : Option Payload) (now : Int) : Option Payload :=
  match sigOk with
  | none => none
  | some payload =>
    match payload.exp with
    | none => some payload
    | some e => if e ≤ now then none else some payload

/-- `verify_jwt` of `src/utils/jwt.py`: `jwt.decode` (whose
`InvalidTokenError`, `ExpiredSignatureError` included, is caught and
turned into `None`) followed by the manual re-check
`if exp and datetime.fromtimestamp(exp) < datetime.utcnow()`, which
skips a missing or falsy (0) `exp` and compares strictly.  Any payload
reaching the manual check has already survived decode's exp
validation. -/
def verify_jwt (sigOk : Option Payload) (now : Int) : Option Payload :=
  match jwtDecode sigOk now with
  | none => none
  | some payload =>
    match payload.exp with
    | none => some payload
    | some e => if e ≠ 0 ∧ e < now then none else some payload

/-- `verify_jwt_middleware` of `src/middleware/auth.py`.  The raw
Authorization header is `none` when absent; `decode` maps the bearer
token to the signature/structure outcome consumed by `verify_jwt`. -/
def verify_jwt_middleware (auth_header : Option String)
    (decode : String → Option Payload) (now : Int) : Except HTTPError Payload :=
  match auth_header with
  | none => .error ⟨401, "Missing Authorization header"⟩
  | some h =>
    if h = "" then .error ⟨401, "Missing Authorization header"⟩
    else
      let parts := (h.split Char.isWhitespace).filter (fun s => s ≠ "")
      if parts.length ≠ 2 ∨ (parts.headD "").toLower ≠ "bearer" then
        .error ⟨401, "Invalid Authorization header format. Expected: Bearer <token>"⟩
      else
        match verify_jwt (decode (parts.getD 1 "")) now with
        | none => .error ⟨401, "Invalid or expired token"⟩
        | some payload => .ok payload

/-- Python `str.strip()`: removes leading and trailing whitespace. -/
def strip (s : String) : String :=
  ⟨((s.data.dropWhile Char.isWhitespace).reverse.dropWhile Char.isWhitespace).reverse⟩

/-- `session.get(Task, task_id)`: primary-key lookup. -/
def findTask (db : List Task) (task_id : Nat) : Option Task :=
  db.find? (fun t => t.id == task_id)

/-- In-place mutation of a row: every row with the mutated row's id is
replaced by the new value. -/
def replaceTask (db : List Task) (t' : Task) : List Task :=
  db.map (fun t => if t.id == t'.id then t' else t)

/-- `session.delete(task)`: removes the looked-up row. -/
def deleteById (db : List Task) (task_id : Nat) : List Task :=
  db.eraseP (fun t => t.id == task_id)

/-- The completion filter of `list_tasks`: `pending` keeps uncompleted
rows, `completed` keeps completed rows, anything else adds no clause. -/
def matchesStatus (filter_status : String) (t : Task) : Bool :=
  if filter_status = "pending" then t.completed == false
  else if filter_status = "completed" then t.completed == true
  else true

/-- Stable insertion for descending `created_at`. -/
def insertByCreatedDesc (t : Task) : List Task → List Task
  | [] => [t]
  | h :: rest =>
    if h.created_at < t.created_at then t :: h :: rest
    else h :: insertByCreatedDesc t rest

/-- `order_by(Task.created_at.desc())`. -/
def sortByCreatedDesc : List Task → List Task
  | [] => []
  | h :: rest => insertByCreatedDesc h (sortByCreatedDesc rest)

/-- The query built by `list_tasks`: owner clause, optional completion
clause, descending `created_at` order. -/
def taskQuery (user_id : String) (filter_status : String) (db : List Task) : List Task :=
  sortByCreatedDesc ((db.filter (fun t => t.user_id == user_id)).filter
    (matchesStatus filter_status))

/-- The declarative validation of `TaskCreate` in `src/schemas.py`,
run by FastAPI before the handler body: `title` has `min_length=1,
max_length=200` and `description` has `max_length=1000`, both checked on
the raw (untrimmed) request values. -/
def validTaskCreate (title : String) (description : Option String) : Bool :=
  1 ≤ title.length && title.length ≤ 200 &&
    (match description with | none => true | some d => d.length ≤ 1000)

/-- The declarative validation of `TaskUpdate` in `src/schemas.py`. -/
def validTaskUpdate (title description : Option String) : Bool :=
  (match title with | none => true | some s => 1 ≤ s.length && s.length ≤ 200) &&
    (match description with | none => true | some d => d.length ≤ 1000)

/-- GET `/{user_id}/tasks`: `list_tasks` of `src/routes/tasks.py`. -/
def list_tasks (auth_user_id user_id : String) (filter_status : String)
    (db : List Task) : Except HTTPError ApiResponse × List Task :=
  if auth_user_id ≠ user_id then
    (.error ⟨403, "Cannot access other users' tasks"⟩, db)
  else
    (.ok ⟨true, some (.taskList (taskQuery user_id filter_status db)), none⟩, db)

/-- POST `/{user_id}/tasks`: `create_task` of `src/routes/tasks.py`.
`new_id` is the store-assigned primary key, `now` the instant of the
`default_factory=datetime.utcnow` timestamps.  The description is stored
only when the request value is truthy (Python `if task_data.description`),
so an empty-string description is stored as `None`. -/
def create_task (auth_user_id user_id : String) (title : String)
    (description : Option String) (db : List Task) (new_id : Nat) (now : Nat) :
    Except HTTPError ApiResponse × List Task :=
  if auth_user_id ≠ user_id then
    (.error ⟨403, "Cannot create tasks for other users"⟩, db)
  else
    let task : Task :=
      { id := new_id
        user_id := user_id
        title := strip title
        description := match description with
          | none => none
          | some d => if d = "" then none else some (strip d)
        completed := false
        created_at := now
        updated_at := now }
    (.ok ⟨true, some (.task task), none⟩, db ++ [task])

/-- GET `/{user_id}/tasks/{task_id}`: `get_task` of `src/routes/tasks.py`. -/
def get_task (auth_user_id user_id : String) (task_id : Nat) (db : List Task) :
    Except HTTPError ApiResponse × List Task :=
  if auth_user_id ≠ user_id then
    (.error ⟨403, "Cannot access other users' tasks"⟩, db)
  else
    match findTask db task_id with
    | none => (.error ⟨404, "Task not found"⟩, db)
    | some task =>
      if task.user_id ≠ user_id then (.error ⟨404, "Task not found"⟩, db)
      else (.ok ⟨true, some (.task task), none⟩, db)

/-- PUT `/{user_id}/tasks/{task_id}`: `update_task` of
`src/routes/tasks.py`.  Only fields present in the body are assigned
(trimmed); `updated_at` is always refreshed to `now`. -/
def update_task (auth_user_id user_id : String) (task_id : Nat)
    (title description : Option String) (db : List Task) (now : Nat) :
    Except HTTPError ApiResponse × List Task :=
  if auth_user_id ≠ user_id then
    (.error ⟨403, "Cannot update other users' tasks"⟩, db)
  else
    match findTask db task_id with
    | none => (.error ⟨404, "Task not found"⟩, db)
    | some task =>
      if task.user_id ≠ user_id then (.error ⟨404, "Task not found"⟩, db)
      else
        let task' : Task :=
          { task with
            title := match title with | none => task.title | some s => strip s
            description := match description with
              | none => task.description
              | some d => some (strip d)
            updated_at := now }
        (.ok ⟨true, some (.task task'), none⟩, replaceTask db task')

/-- DELETE `/{user_id}/tasks/{task_id}`: `delete_task` of
`src/routes/tasks.py`. -/
def delete_task (auth_user_id user_id : String) (task_id : Nat)
    (db : List Task) : Except HTTPError ApiResponse × List Task :=
  if auth_user_id ≠ user_id then
    (.error ⟨403, "Cannot delete other users' tasks"⟩, db)
  else
    match findTask db task_id with
    | none => (.error ⟨404, "Task not found"⟩, db)
    | some task =>
      if task.user_id ≠ user_id then (.error ⟨404, "Task not found"⟩, db)
      else
        (.ok ⟨true, some (.message "Task deleted successfully"), none⟩,
          deleteById db task_id)

/-- PATCH `/{user_id}/tasks/{task_id}/complete`: `toggle_task_completion`
of `src/routes/tasks.py`. -/
def toggle_task_completion (auth_user_id user_id : String) (task_id : Nat)
    (db : List Task) (now : Nat) : Except HTTPError ApiResponse × List Task :=
  if auth_user_id ≠ user_id then
    (.error ⟨403, "Cannot update other users' tasks"⟩, db)
  else
    match findTask db task_id with
    | none => (.error ⟨404, "Task not found"⟩, db)
    | some task =>
      if task.user_id ≠ user_id then (.error ⟨404, "Task not found"⟩, db)
      else
        let task' : Task :=
          { task with completed := !task.completed, updated_at := now }
        (.ok ⟨true, some (.task task'), none⟩, replaceTask db task')

instance {ε α : Type} [DecidableEq ε] [DecidableEq α] :
    DecidableEq (Except ε α) := fun a b =>
  match a, b with
  | .ok x, .ok y =>
    if h : x = y then .isTrue (by rw [h])
    else .isFalse (fun hc => by cases hc; exact h rfl)
  | .error x, .error y =>
    if h : x = y then .isTrue (by rw [h])
    else .isFalse (fun hc => by cases hc; exact h rfl)
  | .ok _, .error _ => .isFalse (fun hc => by cases hc)
  | .error _, .ok _ => .isFalse (fun hc => by cases hc)

/-- Whether a handler outcome is an ApiResponse envelope at all
(`.ok`), as opposed to a raised HTTPException. -/
def isEnveloped : Except HTTPError ApiResponse → Bool
  | .ok _ => true
  | .error _ => false

/-- C1: when the caller's verified identity and path identity agree but
differ from a stored task's owner, get, update, delete and
toggle_task_completion on that task's id all fail with 404 "Task not
found" and leave the store unchanged. -/
theorem c1_wrong_owner_not_found
    (caller : String) (task_id : Nat) (db : List Task) (t : Task)
    (hfind : findTask db task_id = some t) (hne : t.user_id ≠ caller)
    (title description : Option String) (now : Nat) :
    get_task caller caller task_id db = (.error ⟨404, "Task not found"⟩, db) ∧
    update_task caller caller task_id title description db now =
      (.error ⟨404, "Task not found"⟩, db) ∧
    delete_task caller caller task_id db = (.error ⟨404, "Task not found"⟩, db) ∧
    toggle_task_completion caller caller task_id db now =
      (.error ⟨404, "Task not found"⟩, db) := by
  refine ⟨?_, ?_, ?_, ?_⟩ <;>
    simp [get_task, update_task, delete_task, toggle_task_completion, hfind, hne]

/-- Witness for C1 at a concrete store: task 5 belongs to u1, caller u2
uses its own path. -/
theorem c1_wrong_owner_not_found_witness :
    get_task "u2" "u2" 5 [⟨5, "u1", "T", none, false, 0, 0⟩] =
      (.error ⟨404, "Task not found"⟩, [⟨5, "u1", "T", none, false, 0, 0⟩]) ∧
    update_task "u2" "u2" 5 none none [⟨5, "u1", "T", none, false, 0, 0⟩] 9 =
      (.error ⟨404, "Task not found"⟩, [⟨5, "u1", "T", none, false, 0, 0⟩]) ∧
    delete_task "u2" "u2" 5 [⟨5, "u1", "T", none, false, 0, 0⟩] =
      (.error ⟨404, "Task not found"⟩, [⟨5, "u1", "T", none, false, 0, 0⟩]) ∧
    toggle_task_completion "u2" "u2" 5 [⟨5, "u1", "T", none, false, 0, 0⟩] 9 =
      (.error ⟨404, "Task not found"⟩, [⟨5, "u1", "T", none, false, 0, 0⟩]) :=
  c1_wrong_owner_not_found "u2" 5 [⟨5, "u1", "T", none, false, 0, 0⟩]
    ⟨5, "u1", "T", none, false, 0, 0⟩ (by decide) (by decide) none none 9

/-- C2: on every one of the six operations, a path identity differing
from the verified identity yields 403 Forbidden — never 404 — with the
store returned unchanged, whatever its contents: the guard runs before
any store access. -/
theorem c2_path_mismatch_forbidden
    (auth_user user_id : String) (h : auth_user ≠ user_id)
    (filter_status title : String) (descr : Option String)
    (task_id new_id : Nat) (titleU descrU : Option String)
    (db : List Task) (now : Nat) :
    list_tasks auth_user user_id filter_status db =
      (.error ⟨403, "Cannot access other users' tasks"⟩, db) ∧
    create_task auth_user user_id title descr db new_id now =
      (.error ⟨403, "Cannot create tasks for other users"⟩, db) ∧
    get_task auth_user user_id task_id db =
      (.error ⟨403, "Cannot access other users' tasks"⟩, db) ∧
    update_task auth_user user_id task_id titleU descrU db now =
      (.error ⟨403, "Cannot update other users' tasks"⟩, db) ∧
    delete_task auth_user user_id task_id db =
      (.error ⟨403, "Cannot delete other users' tasks"⟩, db) ∧
    toggle_task_completion auth_user user_id task_id db now =
      (.error ⟨403, "Cannot update other users' tasks"⟩, db) := by
  refine ⟨?_, ?_, ?_, ?_, ?_, ?_⟩ <;>
    simp [list_tasks, create_task, get_task, update_task, delete_task,
      toggle_task_completion, h]

/-- Witness for C2: token for u2, path names u1, store holds u1's task 5. -/
theorem c2_path_mismatch_forbidden_witness :
    get_task "u2" "u1" 5 [⟨5, "u1", "T", none, false, 0, 0⟩] =
      (.error ⟨403, "Cannot access other users' tasks"⟩,
        [⟨5, "u1", "T", none, false, 0, 0⟩]) :=
  (c2_path_mismatch_forbidden "u2" "u1" (by decide) "all" "x" none 5 1 none none
    [⟨5, "u1", "T", none, false, 0, 0⟩] 9).2.2.1

/-- C3 is violated by the code: a whitespace-only title of length 1..200
passes the TaskCreate validation (min_length counts the raw value), and
the handler then strips it, storing an empty title.  At title "   " the
accepted request stores a task whose title is "". -/
theorem c3_whitespace_title_stored_empty :
    validTaskCreate "   " none = true ∧
    (create_task "u1" "u1" "   " none [] 1 0).1 =
      .ok ⟨true, some (.task ⟨1, "u1", "", none, false, 0, 0⟩), none⟩ := by
  constructor
  · decide
  · decide

theorem jwtDecode_eq_some (sigOk : Option Payload) (now : Int) (p : Payload) :
    jwtDecode sigOk now = some p ↔
      sigOk = some p ∧ ∀ e, p.exp = some e → now < e := by
  cases sigOk with
  | none => simp [jwtDecode]
  | some q =>
    cases hexp : q.exp with
    | none =>
      simp only [jwtDecode, hexp]
      constructor
      · intro h
        cases h
        exact ⟨rfl, fun e he => by rw [hexp] at he; cases he⟩
      · rintro ⟨h, _⟩
        cases h
        rfl
    | some e =>
      simp only [jwtDecode, hexp]
      by_cases hle : e ≤ now
      · rw [if_pos hle]
        constructor
        · intro h
          exact Option.noConfusion h
        · rintro ⟨h, hall⟩
          cases h
          exact absurd (hall e hexp) (not_lt.mpr hle)
      · rw [if_neg hle]
        constructor
        · intro h
          cases h
          refine ⟨rfl, ?_⟩
          intro e' he'
          rw [hexp] at he'
          cases he'
          exact lt_of_not_le hle
        · rintro ⟨h, _⟩
          cases h
          rfl

theorem verify_jwt_eq_jwtDecode (sigOk : Option Payload) (now : Int) :
    verify_jwt sigOk now = jwtDecode sigOk now := by
  cases hd : jwtDecode sigOk now with
  | none => simp [verify_jwt, hd]
  | some p =>
    obtain ⟨-, hall⟩ := (jwtDecode_eq_some sigOk now p).mp hd
    cases hexp : p.exp with
    | none => simp [verify_jwt, hd, hexp]
    | some e =>
      have hlt := hall e hexp
      have hnc : ¬ (e ≠ 0 ∧ e < now) :=
        fun hc => absurd hc.2 (not_lt.mpr (le_of_lt hlt))
      simp [verify_jwt, hd, hexp, hnc]

/-- C4: the verifier returns the decoded claim set exactly when the
signature verifies, the structure is well-formed, and any claimed expiry
is strictly after the verification instant; it fails whenever the
decode fails or a claimed expiry is at or before the instant.  PyJWT's
default verify_exp enforces the expiry bound inside decode, making the
source's manual re-check redundant for payloads that survive decode. -/
theorem c4_verify_jwt_exact (sigOk : Option Payload) (now : Int) :
    (∀ p, verify_jwt sigOk now = some p ↔
      sigOk = some p ∧ ∀ e, p.exp = some e → now < e) ∧
    (∀ p e, sigOk = some p → p.exp = some e → e ≤ now →
      verify_jwt sigOk now = none) := by
  constructor
  · intro p
    rw [verify_jwt_eq_jwtDecode]
    exact jwtDecode_eq_some sigOk now p
  · intro p e hs hexp hle
    rw [verify_jwt_eq_jwtDecode]
    subst hs
    simp [jwtDecode, hexp, hle]

/-- Witness for C4: a token expiring at 200 is accepted at instant 100,
and one expiring exactly at the verification instant 100 is rejected. -/
theorem c4_verify_jwt_exact_witness :
    verify_jwt (some ⟨some "u1", some "u1@example.com", some 200⟩) 100 =
      some ⟨some "u1", some "u1@example.com", some 200⟩ ∧
    verify_jwt (some ⟨some "u1", some "u1@example.com", some 100⟩) 100 =
      none :=
  ⟨((c4_verify_jwt_exact (some ⟨some "u1", some "u1@example.com", some 200⟩)
      100).1 ⟨some "u1", some "u1@example.com", some 200⟩).mpr
    ⟨rfl, by intro e he; cases he; decide⟩,
   (c4_verify_jwt_exact (some ⟨some "u1", some "u1@example.com", some 100⟩)
      100).2 ⟨some "u1", some "u1@example.com", some 100⟩ 100 rfl rfl
    (by decide)⟩

/-- C10 counterexample: a correctly signed token whose payload carries
exp = 0 is rejected at verification instant 100: decode's default exp
validation treats the present claim as expired and verify_jwt returns
none, refuting the claim that such a token is accepted at every
instant. -/
theorem c10_zero_exp_rejected :
    verify_jwt (some ⟨some "u1", none, some 0⟩) 100 = none := by
  decide

/-- C10 amended: a correctly signed, well-formed token with no exp claim
is accepted at every verification instant; a payload with exp = 0 is
rejected as expired at every instant at or after the epoch, because the
present claim is validated inside decode and the manual falsy-exp skip
never sees it. -/
theorem c10_missing_exp_accepted (p q : Payload) (now : Int)
    (hp : p.exp = none) (hq : q.exp = some 0) (hnow : 0 ≤ now) :
    verify_jwt (some p) now = some p ∧ verify_jwt (some q) now = none := by
  constructor
  · simp [verify_jwt, jwtDecode, hp]
  · simp [verify_jwt, jwtDecode, hq, hnow]

/-- Witness for C10's amended theorem at instant 123456. -/
theorem c10_missing_exp_accepted_witness :
    verify_jwt (some ⟨some "u1", none, none⟩) 123456 =
      some ⟨some "u1", none, none⟩ ∧
    verify_jwt (some ⟨some "u1", none, some 0⟩) 123456 = none :=
  c10_missing_exp_accepted ⟨some "u1", none, none⟩ ⟨some "u1", none, some 0⟩
    123456 rfl rfl (by decide)

theorem insertByCreatedDesc_perm (t : Task) (l : List Task) :
    (insertByCreatedDesc t l).Perm (t :: l) := by
  induction l with
  | nil => exact List.Perm.refl _
  | cons x xs ih =>
    simp only [insertByCreatedDesc]
    split
    · exact List.Perm.refl _
    · exact (ih.cons x).trans (List.Perm.swap t x xs)

theorem sortByCreatedDesc_perm (l : List Task) :
    (sortByCreatedDesc l).Perm l := by
  induction l with
  | nil => exact List.Perm.refl _
  | cons x xs ih =>
    exact (insertByCreatedDesc_perm x (sortByCreatedDesc xs)).trans (ih.cons x)

theorem insertByCreatedDesc_pairwise (t : Task) (l : List Task)
    (h : l.Pairwise (fun a b => b.created_at ≤ a.created_at)) :
    (insertByCreatedDesc t l).Pairwise (fun a b => b.created_at ≤ a.created_at) := by
  induction l with
  | nil => simp [insertByCreatedDesc]
  | cons x xs ih =>
    rw [List.pairwise_cons] at h
    obtain ⟨hx, hxs⟩ := h
    simp only [insertByCreatedDesc]
    split
    · rename_i hlt
      rw [List.pairwise_cons]
      refine ⟨?_, List.pairwise_cons.mpr ⟨hx, hxs⟩⟩
      intro b hb
      rcases List.mem_cons.mp hb with rfl | hb
      · exact le_of_lt hlt
      · exact le_trans (hx b hb) (le_of_lt hlt)
    · rename_i hge
      rw [List.pairwise_cons]
      refine ⟨?_, ih hxs⟩
      intro b hb
      rcases List.mem_cons.mp ((insertByCreatedDesc_perm t xs).mem_iff.mp hb)
        with h | h
      · exact h ▸ le_of_not_lt hge
      · exact hx b h

theorem sortByCreatedDesc_pairwise (l : List Task) :
    (sortByCreatedDesc l).Pairwise (fun a b => b.created_at ≤ a.created_at) := by
  induction l with
  | nil => simp [sortByCreatedDesc]
  | cons x xs ih => exact insertByCreatedDesc_pairwise x _ ih

theorem matchesStatus_iff (f : String) (t : Task) :
    matchesStatus f t = true ↔
      ((f = "pending" → t.completed = false) ∧
       (f = "completed" → t.completed = true)) := by
  have hne : ("pending" : String) ≠ "completed" := by decide
  unfold matchesStatus
  by_cases hp : f = "pending"
  · subst hp
    simp [hne]
  · by_cases hc : f = "completed"
    · subst hc
      simp [hne.symm]
    · simp [hp, hc]

/-- C6: with matching path and verified identity, list succeeds for every
filter value, returning the store unchanged and a task list that is a
permutation of the owner-and-status-filtered store, is ordered by
created_at descending, and contains a task exactly when it is a stored
task of that owner matching the filter (pending means uncompleted,
completed means completed, anything else unrestricted) — in particular
never another owner's task. -/
theorem c6_list_exact (owner filter_status : String) (db : List Task) :
    list_tasks owner owner filter_status db =
      (.ok ⟨true, some (.taskList (taskQuery owner filter_status db)), none⟩, db) ∧
    (taskQuery owner filter_status db).Perm
      ((db.filter (fun t => t.user_id == owner)).filter
        (matchesStatus filter_status)) ∧
    (taskQuery owner filter_status db).Pairwise
      (fun a b => b.created_at ≤ a.created_at) ∧
    ∀ t, (t ∈ taskQuery owner filter_status db ↔
      t ∈ db ∧ t.user_id = owner ∧
      (filter_status = "pending" → t.completed = false) ∧
      (filter_status = "completed" → t.completed = true)) := by
  refine ⟨by simp [list_tasks], sortByCreatedDesc_perm _, sortByCreatedDesc_pairwise _, ?_⟩
  intro t
  simp only [taskQuery]
  rw [(sortByCreatedDesc_perm _).mem_iff, List.mem_filter, List.mem_filter,
    matchesStatus_iff]
  constructor
  · rintro ⟨⟨hdb, hown⟩, hm⟩
    exact ⟨hdb, by simpa using hown, hm⟩
  · rintro ⟨hdb, hown, hm⟩
    exact ⟨⟨hdb, by simpa using hown⟩, hm⟩

/-- Witness for C6 at a concrete store with two owners and a pending
filter. -/
theorem c6_list_exact_witness :
    list_tasks "u1" "u1" "pending"
      [⟨1, "u1", "a", none, false, 5, 5⟩, ⟨2, "u2", "b", none, false, 7, 7⟩,
       ⟨3, "u1", "c", none, true, 9, 9⟩] =
      (.ok ⟨true, some (.taskList [⟨1, "u1", "a", none, false, 5, 5⟩]), none⟩,
       [⟨1, "u1", "a", none, false, 5, 5⟩, ⟨2, "u2", "b", none, false, 7, 7⟩,
        ⟨3, "u1", "c", none, true, 9, 9⟩]) :=
  (c6_list_exact "u1" "pending"
    [⟨1, "u1", "a", none, false, 5, 5⟩, ⟨2, "u2", "b", none, false, 7, 7⟩,
     ⟨3, "u1", "c", none, true, 9, 9⟩]).1.trans (by decide)

/-- C9: any filter_status other than the exact strings "pending" and
"completed" imposes no completion restriction: the result equals the
"all" result, and is a success listing all the owner's tasks in
descending created_at order, never an error. -/
theorem c9_unknown_filter_unrestricted (owner fs : String)
    (hp : fs ≠ "pending") (hc : fs ≠ "completed") (db : List Task) :
    list_tasks owner owner fs db = list_tasks owner owner "all" db ∧
    list_tasks owner owner fs db =
      (.ok ⟨true, some (.taskList
        (sortByCreatedDesc (db.filter (fun t => t.user_id == owner)))), none⟩,
       db) := by
  have hm : matchesStatus fs = fun _ => true := by
    funext t
    simp [matchesStatus, hp, hc]
  have hall : matchesStatus "all" = fun _ => true := by
    funext t
    simp [matchesStatus]
  constructor
  · simp [list_tasks, taskQuery, hm, hall]
  · simp [list_tasks, taskQuery, hm]

/-- Witness for C9 at the arbitrary filter string "bogus". -/
theorem c9_unknown_filter_unrestricted_witness :
    list_tasks "u1" "u1" "bogus"
      [⟨1, "u1", "a", none, true, 5, 5⟩, ⟨2, "u1", "b", none, false, 7, 7⟩] =
      (.ok ⟨true, some (.taskList
        [⟨2, "u1", "b", none, false, 7, 7⟩, ⟨1, "u1", "a", none, true, 5, 5⟩]),
        none⟩,
       [⟨1, "u1", "a", none, true, 5, 5⟩, ⟨2, "u1", "b", none, false, 7, 7⟩]) :=
  ((c9_unknown_filter_unrestricted "u1" "bogus" (by decide) (by decide)
    [⟨1, "u1", "a", none, true, 5, 5⟩,
     ⟨2, "u1", "b", none, false, 7, 7⟩]).2).trans (by decide)

theorem findTask_replaceTask (t t' : Task) (hid : t'.id = t.id) :
    ∀ db task_id, findTask db task_id = some t →
      findTask (replaceTask db t') task_id = some t' := by
  intro db
  induction db with
  | nil =>
    intro task_id h
    simp [findTask] at h
  | cons x xs ih =>
    intro task_id hfind
    have htid : t.id = task_id := by
      simpa using List.find?_some hfind
    by_cases hx : x.id = task_id
    · have hxt : x = t := by
        simpa [findTask, hx] using hfind
      have ht' : t'.id = task_id := hid.trans htid
      simp [findTask, replaceTask, hxt, hid, ht']
      exact Or.inl htid
    · have hfind' : findTask xs task_id = some t := by
        simpa [findTask, hx] using hfind
      have hx' : ¬ x.id = t'.id := by
        rw [hid, htid]
        exact hx
      have := ih task_id hfind'
      simp only [findTask, replaceTask, List.map_cons] at this ⊢
      rw [if_neg (by simpa using hx')]
      rw [List.find?_cons_of_neg _ (by simpa using hx)]
      exact this

/-- C7: a single toggle on an owned task flips completed and sets
updated_at to the mutation instant; toggling twice, at instants that
strictly advance past the task's stored updated_at, yields a second
response whose completed equals the pre-first-call value, with updated_at
strictly increasing on each of the two calls. -/
theorem c7_toggle_twice (owner : String) (task_id : Nat) (db : List Task)
    (t : Task) (hfind : findTask db task_id = some t) (hown : t.user_id = owner)
    (t1 t2 : Nat) (h1 : t.updated_at < t1) (h2 : t1 < t2) :
    ∃ t' t'',
      toggle_task_completion owner owner task_id db t1 =
        (.ok ⟨true, some (.task t'), none⟩, replaceTask db t') ∧
      toggle_task_completion owner owner task_id (replaceTask db t') t2 =
        (.ok ⟨true, some (.task t''), none⟩,
          replaceTask (replaceTask db t') t'') ∧
      t'.completed = !t.completed ∧ t'.updated_at = t1 ∧
      t''.completed = t.completed ∧ t''.updated_at = t2 ∧
      t.updated_at < t'.updated_at ∧ t'.updated_at < t''.updated_at := by
  subst hown
  refine ⟨{t with completed := !t.completed, updated_at := t1},
          {t with completed := !(!t.completed), updated_at := t2},
          ?_, ?_, rfl, rfl, Bool.not_not t.completed, rfl, h1, h2⟩
  · simp [toggle_task_completion, hfind]
  · have hfind2 := findTask_replaceTask t
      {t with completed := !t.completed, updated_at := t1} rfl db task_id hfind
    simp [toggle_task_completion, hfind2]

/-- Witness for C7: task 5 of u1, initially uncompleted with
updated_at 0, toggled at instants 1 and 2. -/
theorem c7_toggle_twice_witness :
    ∃ t' t'',
      toggle_task_completion "u1" "u1" 5 [⟨5, "u1", "T", none, false, 0, 0⟩] 1 =
        (.ok ⟨true, some (.task t'), none⟩,
          replaceTask [⟨5, "u1", "T", none, false, 0, 0⟩] t') ∧
      toggle_task_completion "u1" "u1" 5
          (replaceTask [⟨5, "u1", "T", none, false, 0, 0⟩] t') 2 =
        (.ok ⟨true, some (.task t''), none⟩,
          replaceTask (replaceTask [⟨5, "u1", "T", none, false, 0, 0⟩] t') t'') ∧
      t'.completed = !(⟨5, "u1", "T", none, false, 0, 0⟩ : Task).completed ∧
      t'.updated_at = 1 ∧
      t''.completed = (⟨5, "u1", "T", none, false, 0, 0⟩ : Task).completed ∧
      t''.updated_at = 2 ∧
      (⟨5, "u1", "T", none, false, 0, 0⟩ : Task).updated_at < t'.updated_at ∧
      t'.updated_at < t''.updated_at :=
  c7_toggle_twice "u1" 5 [⟨5, "u1", "T", none, false, 0, 0⟩]
    ⟨5, "u1", "T", none, false, 0, 0⟩ (by decide) rfl 1 2 (by decide) (by decide)

/-- C8: update on an owned task changes exactly the supplied fields
(trimmed), keeps an absent field's stored value, refreshes updated_at to
the mutation instant even when no field is supplied, and never changes
id, owner, completed or created_at. -/
theorem c8_update_frame (owner : String) (task_id : Nat) (t : Task)
    (db : List Task) (hfind : findTask db task_id = some t)
    (hown : t.user_id = owner) (title description : Option String) (now : Nat) :
    ∃ t', update_task owner owner task_id title description db now =
        (.ok ⟨true, some (.task t'), none⟩, replaceTask db t') ∧
      t'.title = (match title with | none => t.title | some s => strip s) ∧
      t'.description = (match description with
        | none => t.description | some d => some (strip d)) ∧
      t'.updated_at = now ∧
      t'.id = t.id ∧ t'.user_id = t.user_id ∧ t'.completed = t.completed ∧
      t'.created_at = t.created_at := by
  refine ⟨{t with
      title := match title with | none => t.title | some s => strip s
      description := match description with
        | none => t.description | some d => some (strip d)
      updated_at := now},
    ?_, rfl, rfl, rfl, rfl, rfl, rfl, rfl⟩
  simp [update_task, hfind, hown]

/-- Witness for C8: a body supplying only a padded title leaves the
description, completion flag, id, owner and created_at unchanged, stores
the trimmed title, and refreshes updated_at. -/
theorem c8_update_frame_witness :
    ∃ t', update_task "u1" "u1" 5 (some "  New  ") none
        [⟨5, "u1", "Old", some "keep", true, 3, 4⟩] 9 =
        (.ok ⟨true, some (.task t'), none⟩,
          replaceTask [⟨5, "u1", "Old", some "keep", true, 3, 4⟩] t') ∧
      t'.title = strip "  New  " ∧
      t'.description = some "keep" ∧
      t'.updated_at = 9 ∧
      t'.id = 5 ∧ t'.user_id = "u1" ∧ t'.completed = true ∧
      t'.created_at = 3 :=
  c8_update_frame "u1" 5 ⟨5, "u1", "Old", some "keep", true, 3, 4⟩
    [⟨5, "u1", "Old", some "keep", true, 3, 4⟩] (by decide) rfl
    (some "  New  ") none 9

theorem pairErrOk {e : HTTPError} {r : ApiResponse} {d1 d2 : List Task} {C : Prop}
    (h : ((Except.error e : Except HTTPError ApiResponse), d1) = (.ok r, d2)) :
    C :=
  Except.noConfusion (congrArg Prod.fst h)

theorem pairOkInj {X r : ApiResponse} {d1 d2 : List Task}
    (h : ((Except.ok X : Except HTTPError ApiResponse), d1) = (.ok r, d2)) :
    X = r := by
  have h1 := congrArg Prod.fst h
  injection h1

/-- C5 counterexample: the claim requires every failure to be wrapped in
the envelope with success set to false and error populated, but a
concrete failing request (GET task 5 of u1's path with a token for u2,
on the empty store) produces a bare HTTPException with a status code and
detail string — no envelope at all. -/
theorem c5_failure_not_enveloped :
    (get_task "u2" "u1" 5 []).1 =
      .error ⟨403, "Cannot access other users' tasks"⟩ ∧
    isEnveloped (get_task "u2" "u1" 5 []).1 = false := by
  constructor
  · decide
  · decide

/-- C5 amended: successful responses of all six operations are wrapped in
the envelope with success true, error none and data populated; failing
responses are raised HTTPExceptions outside the envelope (so an envelope
with success false or a populated error field is never produced), and
every middleware authentication failure is a bare 401 HTTPException. -/
theorem c5_success_envelope
    (auth_user user_id filter_status title : String) (descr : Option String)
    (task_id new_id : Nat) (titleU descrU : Option String)
    (db : List Task) (now : Nat) :
    (∀ r db', list_tasks auth_user user_id filter_status db = (.ok r, db') →
      r.success = true ∧ r.error = none ∧ r.data.isSome = true) ∧
    (∀ r db', create_task auth_user user_id title descr db new_id now =
        (.ok r, db') →
      r.success = true ∧ r.error = none ∧ r.data.isSome = true) ∧
    (∀ r db', get_task auth_user user_id task_id db = (.ok r, db') →
      r.success = true ∧ r.error = none ∧ r.data.isSome = true) ∧
    (∀ r db', update_task auth_user user_id task_id titleU descrU db now =
        (.ok r, db') →
      r.success = true ∧ r.error = none ∧ r.data.isSome = true) ∧
    (∀ r db', delete_task auth_user user_id task_id db = (.ok r, db') →
      r.success = true ∧ r.error = none ∧ r.data.isSome = true) ∧
    (∀ r db', toggle_task_completion auth_user user_id task_id db now =
        (.ok r, db') →
      r.success = true ∧ r.error = none ∧ r.data.isSome = true) ∧
    (∀ (ah : Option String) (dec : String → Option Payload) (nw : Int) e,
      verify_jwt_middleware ah dec nw = .error e → e.status_code = 401) := by
  refine ⟨?_, ?_, ?_, ?_, ?_, ?_, ?_⟩
  · intro r db' h
    simp only [list_tasks] at h
    split at h
    · exact pairErrOk h
    · have hx := pairOkInj h
      subst hx
      exact ⟨rfl, rfl, rfl⟩
  · intro r db' h
    simp only [create_task] at h
    split at h
    · exact pairErrOk h
    · have hx := pairOkInj h
      subst hx
      exact ⟨rfl, rfl, rfl⟩
  · intro r db' h
    simp only [get_task] at h
    split at h
    · exact pairErrOk h
    · split at h
      · exact pairErrOk h
      · split at h
        · exact pairErrOk h
        · have hx := pairOkInj h
          subst hx
          exact ⟨rfl, rfl, rfl⟩
  · intro r db' h
    simp only [update_task] at h
    split at h
    · exact pairErrOk h
    · split at h
      · exact pairErrOk h
      · split at h
        · exact pairErrOk h
        · have hx := pairOkInj h
          subst hx
          exact ⟨rfl, rfl, rfl⟩
  · intro r db' h
    simp only [delete_task] at h
    split at h
    · exact pairErrOk h
    · split at h
      · exact pairErrOk h
      · split at h
        · exact pairErrOk h
        · have hx := pairOkInj h
          subst hx
          exact ⟨rfl, rfl, rfl⟩
  · intro r db' h
    simp only [toggle_task_completion] at h
    split at h
    · exact pairErrOk h
    · split at h
      · exact pairErrOk h
      · split at h
        · exact pairErrOk h
        · have hx := pairOkInj h
          subst hx
          exact ⟨rfl, rfl, rfl⟩
  · intro ah dec nw e h
    simp only [verify_jwt_middleware] at h
    split at h
    · injection h with h
      subst h
      rfl
    · split at h
      · injection h with h
        subst h
        rfl
      · split at h
        · injection h with h
          subst h
          rfl
        · split at h
          · injection h with h
            subst h
            rfl
          · exact Except.noConfusion h

/-- Witness for C5's amended theorem: a concrete successful list call
produces an envelope with success true, error none and data populated. -/
theorem c5_success_envelope_witness :
    (⟨true, some (.taskList []), none⟩ : ApiResponse).success = true ∧
    (⟨true, some (.taskList []), none⟩ : ApiResponse).error = none ∧
    (⟨true, some (.taskList []), none⟩ : ApiResponse).data.isSome = true :=
  (c5_success_envelope "u1" "u1" "all" "t" none 1 1 none none [] 0).1
    ⟨true, some (.taskList []), none⟩ [] (by decide)

end TodoApi
